import Mathlib

/-!
# One-time-secret API: shallow embedding and verification

This file embeds the secret-lifecycle core of the `one-time-secret-api`
repository in Lean 4 and settles the specification's claims against it.

Source files embedded:
* `onetimesecret/utils.py` — `derive_key`, `encrypt`, `decrypt`;
* `onetimesecret/database.py` — `FakeSecretRepository` (`create_secret`,
  `get_secret`, `delete_secret`) over an in-memory dict;
* `onetimesecret/services.py` — `SecretService.generate_secret`,
  `SecretService.get_secret`.

Modelling conventions:
* Python `str` values (plaintext, passphrase, master key, lookup keys) are
  Lean `String`s; `str.encode('utf-8')` / `.decode()` are bijective and
  elided.
* Raw byte strings (the random salt from `os.urandom(16)`) are `List Nat`.
* The cryptographic primitives are modelled symbolically (Dolev–Yao style):
  `PBKDF2HMAC(...).derive(master_key)` is an abstract injective function of
  its parameters, represented by a structure recording exactly the arguments
  the source passes (`SHA256`, length 32, the salt, 100000 iterations, the
  key material); a Fernet token records the key it was built under and the
  message, and Fernet decryption succeeds exactly when presented with the
  key the token was built under — that is the authenticated-encryption
  guarantee the source relies on.
* `urlsafe_b64encode(salt + encrypted_data)` concatenates a fixed-length
  (16-byte) salt with the token and base64-encodes; since the salt length is
  fixed, this is an injective pairing, modelled as a structure with `salt`
  and `token` fields; `decrypt`'s `data[:16]` / `data[16:]` split is the
  corresponding pair of projections.
* The in-memory dict `FakeSecretRepository.data` is an association list with
  Python-dict semantics: assignment `d[k] = v` replaces in place or appends,
  `del d[k]` removes the entry, `.get(k)` returns the first (only) match.
* Randomness (`os.urandom(16)` salts, `uuid.uuid4()`) is threaded as
  explicit inputs, collected in a `GenRandom` record for `generate_secret`.
* Python exceptions raised by `SecretService.get_secret` become an
  `Except GetError` result: `InvalidSecretKeyException` is the not-found
  error (mapped to HTTP 404 by the routing layer), and
  `InvalidPassphraseException` the wrong-passphrase error (HTTP 400).
  An uncaught `cryptography.fernet.InvalidToken` escaping `decrypt` is
  `InternalDecryptError`; it is unreachable for records the service created.
-/

namespace OneTimeSecret

/-- A raw byte string (e.g. the output of `os.urandom(16)`). -/
abbrev Bytes := List Nat

/-- Symbolic model of the key returned by `derive_key` in
`onetimesecret/utils.py`: `PBKDF2HMAC` output is an abstract injective
function of the algorithm, output length, salt, iteration count and key
material, so the derived key is represented by the tuple of those
arguments. -/
structure DerivedKey where
  algorithm : String
  length : Nat
  salt : Bytes
  iterations : Nat
  keyMaterial : String
deriving DecidableEq, Repr

/-- `derive_key(master_key, salt)` from `onetimesecret/utils.py`:
`PBKDF2HMAC(algorithm=SHA256, length=32, salt=salt, iterations=100_000)`
applied to `master_key` (the `urlsafe_b64encode` of the 32 output bytes is a
bijection and is elided). -/
def derive_key (master_key : String) (salt : Bytes) : DerivedKey :=
  { algorithm := "SHA256"
    length := 32
    salt := salt
    iterations := 100000
    keyMaterial := master_key }

/-- Symbolic Fernet token: `Fernet(key).encrypt(msg)` produces a token that
authenticates under exactly the key it was built with and carries the
message. -/
structure FernetToken where
  key : DerivedKey
  msg : String
deriving DecidableEq, Repr

/-- `Fernet(key).encrypt(data)`. -/
def fernetEncrypt (key : DerivedKey) (msg : String) : FernetToken :=
  { key := key, msg := msg }

/-- `Fernet(key).decrypt(token)`: succeeds with the message exactly when the
key matches the one the token was built under; otherwise raises
`InvalidToken`, modelled as `none`. -/
def fernetDecrypt (key : DerivedKey) (tok : FernetToken) : Option String :=
  if tok.key = key then some tok.msg else none

/-- The value returned by `encrypt` in `onetimesecret/utils.py`:
`urlsafe_b64encode(salt + encrypted_data)`. The salt has fixed length 16, so
the concatenation is an injective pairing of salt and token. -/
structure EncryptedPayload where
  salt : Bytes
  token : FernetToken
deriving DecidableEq, Repr

/-- `encrypt(data, master_key)` from `onetimesecret/utils.py`. The call
`os.urandom(16)` is threaded as the explicit `salt` argument:
`key = derive_key(master_key, salt)`, then the Fernet token is prefixed by
the salt and base64-encoded. -/
def encrypt (data : String) (master_key : String) (salt : Bytes) : EncryptedPayload :=
  { salt := salt
    token := fernetEncrypt (derive_key master_key salt) data }

/-- `decrypt(encrypted_data, master_key)` from `onetimesecret/utils.py`:
base64-decode, split off the 16-byte salt (`data[:16]` / `data[16:]`),
re-derive the key from the master key and the recovered salt, and Fernet
decrypt. -/
def decrypt (encrypted_data : EncryptedPayload) (master_key : String) : Option String :=
  fernetDecrypt (derive_key master_key encrypted_data.salt) encrypted_data.token

/-- The `Secret` record as constructed by `SecretService.generate_secret` in
`onetimesecret/services.py` and stored by `FakeSecretRepository`: encrypted
secret, encrypted passphrase, the lookup key `secret_key`, the optional
expiration timestamp (`datetime` modelled as `Nat`), and the `id` that
`FakeSecretRepository.create_secret` assigns before insertion. -/
structure Secret where
  secret : EncryptedPayload
  passphrase : EncryptedPayload
  secret_key : String
  expiration : Option Nat
  id : String := ""
deriving DecidableEq, Repr

/-- The in-memory dict `FakeSecretRepository.data : Dict[str, Secret]`,
modelled as an association list with unique keys maintained by the
operations below. -/
abbrev Store := List (String × Secret)

namespace Store

/-- `self.data.get(secret_key)`: first (only) binding of the key, if any. -/
def lookupKey : Store → String → Option Secret
  | [], _ => none
  | (k, v) :: rest, key => if k = key then some v else lookupKey rest key

/-- Dict assignment `self.data[key] = v`: replaces the existing binding in
place, or appends a new one (Python dicts preserve insertion order and
update in place). -/
def setKey : Store → String → Secret → Store
  | [], key, v => [(key, v)]
  | (k, w) :: rest, key, v =>
    if k = key then (key, v) :: rest else (k, w) :: setKey rest key v

/-- `del self.data[key]` guarded by `if key in self.data`: removes the
binding of `key`, a no-op when absent. -/
def eraseKey : Store → String → Store
  | [], _ => []
  | (k, w) :: rest, key =>
    if k = key then eraseKey rest key else (k, w) :: eraseKey rest key

end Store

/-- `FakeSecretRepository.create_secret(secret)` from
`onetimesecret/database.py`: assigns `secret.id = str(uuid.uuid4())` (the
fresh uuid threaded as `freshId`), stores the record under its
`secret_key`, and returns the `secret_key`. -/
def create_secret (store : Store) (secret : Secret) (freshId : String) :
    Store × String :=
  let s := { secret with id := freshId }
  (store.setKey secret.secret_key s, secret.secret_key)

/-- `FakeSecretRepository.get_secret(secret_key)` from
`onetimesecret/database.py`: `return self.data.get(secret_key)`. -/
def repo_get_secret (store : Store) (secret_key : String) : Option Secret :=
  store.lookupKey secret_key

/-- `FakeSecretRepository.delete_secret(secret_key)` from
`onetimesecret/database.py`: `if secret_key in self.data: del
self.data[secret_key]`. -/
def delete_secret (store : Store) (secret_key : String) : Store :=
  store.eraseKey secret_key

/-- The request body of `generate_secret` (`SecretRequest` in
`onetimesecret/models.py` plus the optional expiration the service reads):
plaintext secret, passphrase, optional expiration. -/
structure SecretRequest where
  secret : String
  passphrase : String
  expiration : Option Nat
deriving DecidableEq, Repr

/-- The randomness drawn inside one `SecretService.generate_secret` call,
threaded explicitly: the two `os.urandom(16)` salts of the two `encrypt`
calls, the `str(uuid.uuid4())` lookup key, and the `str(uuid.uuid4())`
record id drawn inside `create_secret`. -/
structure GenRandom where
  secretSalt : Bytes
  passphraseSalt : Bytes
  uuid : String
  repoId : String
deriving DecidableEq, Repr

/-- The exceptions `SecretService.get_secret` can raise, as a result type.
`InvalidSecretKeyException` is this code's not-found error (HTTP 404
"There is no such secret"); `InvalidPassphraseException` its
wrong-passphrase error (HTTP 400). `InternalDecryptError` models an
uncaught `InvalidToken` escaping `decrypt`. -/
inductive GetError where
  | InvalidSecretKeyException
  | InvalidPassphraseException
  | InternalDecryptError
deriving DecidableEq, Repr

/-- `SecretService.generate_secret(request)` from
`onetimesecret/services.py`: encrypt the secret and the passphrase under
the master key, draw a uuid lookup key, build the `Secret` record and store
it via the repository; returns the updated store and the lookup key. -/
def generate_secret (master_key : String) (store : Store)
    (request : SecretRequest) (rnd : GenRandom) : Store × String :=
  let encrypted_secret := encrypt request.secret master_key rnd.secretSalt
  let encrypted_passphrase := encrypt request.passphrase master_key rnd.passphraseSalt
  let secret_key := rnd.uuid
  let secret : Secret :=
    { secret := encrypted_secret
      passphrase := encrypted_passphrase
      secret_key := secret_key
      expiration := request.expiration }
  let (store', _) := create_secret store secret rnd.repoId
  (store', secret_key)

/-- `SecretService.get_secret(secret_key, request)` from
`onetimesecret/services.py`: fetch the record (absent →
`InvalidSecretKeyException`), decrypt the stored passphrase under the
master key and compare with the supplied one (mismatch →
`InvalidPassphraseException`), then decrypt the stored secret, delete the
record from the repository and return the plaintext. Returns the result
together with the store after the call. -/
def get_secret (master_key : String) (store : Store) (secret_key : String)
    (passphrase : String) : Except GetError String × Store :=
  match repo_get_secret store secret_key with
  | none => (Except.error GetError.InvalidSecretKeyException, store)
  | some secret =>
    match decrypt secret.passphrase master_key with
    | none => (Except.error GetError.InternalDecryptError, store)
    | some decrypted_passphrase =>
      if passphrase ≠ decrypted_passphrase then
        (Except.error GetError.InvalidPassphraseException, store)
      else
        match decrypt secret.secret master_key with
        | none => (Except.error GetError.InternalDecryptError, store)
        | some decrypted_secret =>
          (Except.ok decrypted_secret, delete_secret store secret_key)

/-! ## Helper lemmas -/

/-- Decrypting with the master key that was used to encrypt recovers the
data: the salt is recovered from the payload and the re-derived key matches
the token's key. -/
theorem decrypt_encrypt (data master_key : String) (salt : Bytes) :
    decrypt (encrypt data master_key salt) master_key = some data := by
  simp [decrypt, encrypt, fernetEncrypt, fernetDecrypt]

namespace Store

theorem lookupKey_setKey_self (s : Store) (k : String) (v : Secret) :
    (s.setKey k v).lookupKey k = some v := by
  induction s with
  | nil => simp [setKey, lookupKey]
  | cons hd tl ih =>
    obtain ⟨k', w⟩ := hd
    by_cases h : k' = k <;> simp [setKey, lookupKey, h, ih]

theorem lookupKey_setKey_ne (s : Store) (k k' : String) (v : Secret)
    (h : k' ≠ k) : (s.setKey k v).lookupKey k' = s.lookupKey k' := by
  induction s with
  | nil => simp [setKey, lookupKey, Ne.symm h]
  | cons hd tl ih =>
    obtain ⟨k₀, w⟩ := hd
    by_cases h0 : k₀ = k
    · subst h0
      simp [setKey, lookupKey, Ne.symm h, h]
    · by_cases h1 : k₀ = k' <;> simp [setKey, lookupKey, h0, h1, h, ih]

theorem lookupKey_eraseKey_self (s : Store) (k : String) :
    (s.eraseKey k).lookupKey k = none := by
  induction s with
  | nil => simp [eraseKey, lookupKey]
  | cons hd tl ih =>
    obtain ⟨k', w⟩ := hd
    by_cases h : k' = k <;> simp [eraseKey, lookupKey, h, ih]

theorem lookupKey_eraseKey_ne (s : Store) (k k' : String) (h : k' ≠ k) :
    (s.eraseKey k).lookupKey k' = s.lookupKey k' := by
  induction s with
  | nil => simp [eraseKey, lookupKey]
  | cons hd tl ih =>
    obtain ⟨k₀, w⟩ := hd
    by_cases h0 : k₀ = k
    · subst h0
      simp [eraseKey, lookupKey, Ne.symm h, ih]
    · by_cases h1 : k₀ = k' <;> simp [eraseKey, lookupKey, h0, h1, h, ih]

theorem eraseKey_of_lookupKey_none (s : Store) (k : String)
    (h : s.lookupKey k = none) : s.eraseKey k = s := by
  induction s with
  | nil => simp [eraseKey]
  | cons hd tl ih =>
    obtain ⟨k', w⟩ := hd
    by_cases h0 : k' = k
    · simp [lookupKey, h0] at h
    · simp [lookupKey, h0] at h
      simp [eraseKey, h0, ih h]

theorem eraseKey_idem (s : Store) (k : String) :
    (s.eraseKey k).eraseKey k = s.eraseKey k :=
  eraseKey_of_lookupKey_none _ _ (lookupKey_eraseKey_self s k)

theorem length_setKey_of_lookupKey_none (s : Store) (k : String) (v : Secret)
    (h : s.lookupKey k = none) : (s.setKey k v).length = s.length + 1 := by
  induction s with
  | nil => simp [setKey]
  | cons hd tl ih =>
    obtain ⟨k', w⟩ := hd
    by_cases h0 : k' = k
    · simp [lookupKey, h0] at h
    · simp [lookupKey, h0] at h
      simp [setKey, h0, ih h]

end Store

/-- The record stored by `generate_secret` and the store it leaves behind:
the store is the old one with the fresh uuid bound to the record holding
the two encryptions, and the returned key is the uuid. -/
theorem generate_secret_eq (master_key : String) (store : Store)
    (request : SecretRequest) (rnd : GenRandom) :
    generate_secret master_key store request rnd =
      (store.setKey rnd.uuid
        { secret := encrypt request.secret master_key rnd.secretSalt
          passphrase := encrypt request.passphrase master_key rnd.passphraseSalt
          secret_key := rnd.uuid
          expiration := request.expiration
          id := rnd.repoId },
       rnd.uuid) := by
  simp [generate_secret, create_secret]

/-- `get_secret` with the correct passphrase on the store just produced by
`generate_secret` succeeds with the original plaintext and deletes the
record. Shared computation behind the round-trip and single-use claims. -/
theorem get_after_generate (master_key P K : String) (exp : Option Nat)
    (store : Store) (rnd : GenRandom) :
    get_secret master_key (generate_secret master_key store ⟨P, K, exp⟩ rnd).1
        (generate_secret master_key store ⟨P, K, exp⟩ rnd).2 K =
      (Except.ok P,
       delete_secret (generate_secret master_key store ⟨P, K, exp⟩ rnd).1 rnd.uuid) := by
  rw [generate_secret_eq]
  simp [get_secret, repo_get_secret, Store.lookupKey_setKey_self,
    decrypt_encrypt, generate_secret_eq]

/-- The lookup key returned by `generate_secret` is the drawn uuid. -/
theorem generate_secret_snd (master_key : String) (store : Store)
    (request : SecretRequest) (rnd : GenRandom) :
    (generate_secret master_key store request rnd).2 = rnd.uuid := by
  rw [generate_secret_eq]

/-! ## Claims -/

/-- C1: Round trip — for every plaintext `P`, passphrase `K`, expiration,
store state and drawn randomness, if `k` is the key returned by
`generate_secret(P, K)` then `get_secret(k, K)` on the resulting store
returns exactly `P`. -/
theorem C1_round_trip (master_key P K : String) (exp : Option Nat)
    (store : Store) (rnd : GenRandom) :
    (get_secret master_key (generate_secret master_key store ⟨P, K, exp⟩ rnd).1
        (generate_secret master_key store ⟨P, K, exp⟩ rnd).2 K).1 =
      Except.ok P :=
  congrArg Prod.fst (get_after_generate master_key P K exp store rnd)

/-- C2: Single use — the first `get_secret` with the correct passphrase
succeeds; afterwards the record is gone from the store, and a second
`get_secret` with the same key and ANY passphrase `p2` (in particular the
correct one) fails with the not-found error
(`InvalidSecretKeyException`). -/
theorem C2_single_use (master_key P K p2 : String) (exp : Option Nat)
    (store : Store) (rnd : GenRandom) :
    (get_secret master_key (generate_secret master_key store ⟨P, K, exp⟩ rnd).1
        (generate_secret master_key store ⟨P, K, exp⟩ rnd).2 K).1 = Except.ok P ∧
    ((get_secret master_key (generate_secret master_key store ⟨P, K, exp⟩ rnd).1
        (generate_secret master_key store ⟨P, K, exp⟩ rnd).2 K).2).lookupKey
        (generate_secret master_key store ⟨P, K, exp⟩ rnd).2 = none ∧
    (get_secret master_key
        (get_secret master_key (generate_secret master_key store ⟨P, K, exp⟩ rnd).1
          (generate_secret master_key store ⟨P, K, exp⟩ rnd).2 K).2
        (generate_secret master_key store ⟨P, K, exp⟩ rnd).2 p2).1 =
      Except.error GetError.InvalidSecretKeyException := by
  refine ⟨congrArg Prod.fst (get_after_generate master_key P K exp store rnd), ?_, ?_⟩
  · rw [get_after_generate, generate_secret_snd]
    exact Store.lookupKey_eraseKey_self _ _
  · rw [get_after_generate, generate_secret_snd]
    simp [get_secret, repo_get_secret, delete_secret, Store.lookupKey_eraseKey_self]

/-- C3: Wrong passphrase — retrieving with `K2 ≠ K1` fails with the
wrong-passphrase error (`InvalidPassphraseException`), leaves the store
unchanged, and a subsequent `get_secret` with the correct passphrase `K1`
still returns the plaintext. -/
theorem C3_wrong_passphrase (master_key P K1 K2 : String) (exp : Option Nat)
    (store : Store) (rnd : GenRandom) (h : K2 ≠ K1) :
    (get_secret master_key (generate_secret master_key store ⟨P, K1, exp⟩ rnd).1
        (generate_secret master_key store ⟨P, K1, exp⟩ rnd).2 K2).1 =
      Except.error GetError.InvalidPassphraseException ∧
    (get_secret master_key (generate_secret master_key store ⟨P, K1, exp⟩ rnd).1
        (generate_secret master_key store ⟨P, K1, exp⟩ rnd).2 K2).2 =
      (generate_secret master_key store ⟨P, K1, exp⟩ rnd).1 ∧
    (get_secret master_key (generate_secret master_key store ⟨P, K1, exp⟩ rnd).1
        (generate_secret master_key store ⟨P, K1, exp⟩ rnd).2 K1).1 =
      Except.ok P := by
  refine ⟨?_, ?_, congrArg Prod.fst (get_after_generate master_key P K1 exp store rnd)⟩ <;>
  · conv_lhs => rw [generate_secret_eq]
    simp [get_secret, repo_get_secret, Store.lookupKey_setKey_self,
      decrypt_encrypt, h, generate_secret_eq]

/-- Witness for C3 at a concrete input: passphrases `"x" ≠ "swordfish"`,
plaintext `"nuke codes"`, empty store, concrete randomness. -/
theorem C3_wrong_passphrase_witness :
    ("x" : String) ≠ "swordfish" ∧
    (get_secret "m" (generate_secret "m" [] ⟨"nuke codes", "swordfish", none⟩
          ⟨[0], [1], "k", "id"⟩).1
        (generate_secret "m" [] ⟨"nuke codes", "swordfish", none⟩
          ⟨[0], [1], "k", "id"⟩).2 "x").1 =
      Except.error GetError.InvalidPassphraseException :=
  ⟨by decide,
   (C3_wrong_passphrase "m" "nuke codes" "swordfish" "x" none []
      ⟨[0], [1], "k", "id"⟩ (by decide)).1⟩

/-- C4: Expiry visibility — refuted by the code: neither
`FakeSecretRepository.get_secret` (which is just `self.data.get(secret_key)`)
nor `SecretService.get_secret` consults `expiration` or any notion of
current time. At the concrete failing input — a record created with
`expiration = 1` (a 1-second ttl from creation at time 0), fetched with the
correct passphrase (necessarily "after 2s", since no time enters the
computation at all) — the call returns the plaintext `Except.ok "P"`
instead of the claimed not-found error, even though the record's stored
`expiration` is `some 1`. -/
theorem C4_expired_record_still_returned :
    (get_secret "m" (generate_secret "m" [] ⟨"P", "K", some 1⟩
          ⟨List.range 16, List.replicate 16 1, "k", "id"⟩).1
        (generate_secret "m" [] ⟨"P", "K", some 1⟩
          ⟨List.range 16, List.replicate 16 1, "k", "id"⟩).2 "K").1 =
      Except.ok "P" ∧
    ((generate_secret "m" [] ⟨"P", "K", some 1⟩
          ⟨List.range 16, List.replicate 16 1, "k", "id"⟩).1.lookupKey "k").map
        Secret.expiration = some (some 1) := by
  refine ⟨congrArg Prod.fst (get_after_generate "m" "P" "K" (some 1) []
    ⟨List.range 16, List.replicate 16 1, "k", "id"⟩), ?_⟩
  rw [generate_secret_eq]
  simp [Store.lookupKey_setKey_self]

/-- C5 counterexample: the symmetric key used to encrypt the plaintext is
NOT derived from the caller-supplied passphrase. At the concrete input
(master key `"master"`, passphrase `"pass"`), the stored payload's token
was built under `derive_key "master" salt` — the PBKDF2 key material is the
server-wide `MASTER_KEY`, not the passphrase — and that key differs from
the key PBKDF2 would derive from the passphrase with the same salt. -/
theorem C5_counterexample :
    ((generate_secret "master" [] ⟨"P", "pass", none⟩
          ⟨List.range 16, List.replicate 16 1, "k", "id"⟩).1.lookupKey "k").map
        (fun r => r.secret.token.key) =
      some (derive_key "master" (List.range 16)) ∧
    derive_key "master" (List.range 16) ≠ derive_key "pass" (List.range 16) := by
  constructor
  · rw [generate_secret_eq]
    simp [Store.lookupKey_setKey_self, encrypt, fernetEncrypt]
  · simp [derive_key]

/-- C5 (amended): the encryption key for the stored plaintext is derived
from the server-wide master key (not the caller's passphrase) together with
the per-operation random 16-byte salt, via PBKDF2-HMAC-SHA256 with 100000
iterations producing a 32-byte key; the salt is embedded in the stored
payload and decryption with the master key recovers the plaintext. -/
theorem C5_key_derivation (master_key : String) (store : Store)
    (request : SecretRequest) (rnd : GenRandom)
    (h : rnd.secretSalt.length = 16) :
    ((generate_secret master_key store request rnd).1.lookupKey rnd.uuid).map
        (fun r => r.secret) =
      some (encrypt request.secret master_key rnd.secretSalt) ∧
    (encrypt request.secret master_key rnd.secretSalt).salt = rnd.secretSalt ∧
    (encrypt request.secret master_key rnd.secretSalt).token.key =
      derive_key master_key rnd.secretSalt ∧
    (derive_key master_key rnd.secretSalt).algorithm = "SHA256" ∧
    (derive_key master_key rnd.secretSalt).length = 32 ∧
    100000 ≤ (derive_key master_key rnd.secretSalt).iterations ∧
    16 ≤ (derive_key master_key rnd.secretSalt).salt.length ∧
    (derive_key master_key rnd.secretSalt).keyMaterial = master_key ∧
    decrypt (encrypt request.secret master_key rnd.secretSalt) master_key =
      some request.secret := by
  refine ⟨?_, rfl, rfl, rfl, rfl, le_refl _, ?_, rfl, decrypt_encrypt _ _ _⟩
  · rw [generate_secret_eq]
    simp [Store.lookupKey_setKey_self]
  · simp [derive_key, h]

/-- Witness for C5 at a concrete input: a 16-byte salt. -/
theorem C5_key_derivation_witness :
    (⟨List.range 16, List.replicate 16 1, "k", "id"⟩ : GenRandom).secretSalt.length = 16 ∧
    (derive_key "m" (⟨List.range 16, List.replicate 16 1, "k", "id"⟩ :
        GenRandom).secretSalt).length = 32 :=
  ⟨by decide,
   (C5_key_derivation "m" [] ⟨"P", "K", none⟩
      ⟨List.range 16, List.replicate 16 1, "k", "id"⟩ (by decide)).2.2.2.2.1⟩

/-- C6 counterexample: the stored record DOES contain the caller's
passphrase, encrypted under the master key: at the concrete input the
record created by `generate_secret` holds, in its `passphrase` field, a
payload that decrypts under the master key to exactly the caller's
passphrase `"pass"` — `generate_secret` persists
`encrypt(request.passphrase, master_key)` and `get_secret` decrypts and
string-compares it. -/
theorem C6_counterexample :
    ((generate_secret "master" [] ⟨"P", "pass", none⟩
          ⟨List.range 16, List.replicate 16 1, "k", "id"⟩).1.lookupKey "k").map
        (fun r => decrypt r.passphrase "master") =
      some (some "pass") := by
  rw [generate_secret_eq]
  simp [Store.lookupKey_setKey_self, decrypt_encrypt]

/-- C6 (amended): `generate_secret` persists the caller's passphrase in the
stored record, encrypted under the master key (so it is recoverable by the
service, which decrypts it for comparison at retrieval time); the
passphrase is not used to derive the encryption key. For every master key,
store state, request and randomness, the stored record's `passphrase` field
is `encrypt(request.passphrase, master_key)` and decrypting it with the
master key yields the passphrase. -/
theorem C6_passphrase_stored_encrypted (master_key : String) (store : Store)
    (request : SecretRequest) (rnd : GenRandom) :
    ((generate_secret master_key store request rnd).1.lookupKey rnd.uuid).map
        (fun r => (r.passphrase, decrypt r.passphrase master_key)) =
      some (encrypt request.passphrase master_key rnd.passphraseSalt,
            some request.passphrase) := by
  rw [generate_secret_eq]
  simp [Store.lookupKey_setKey_self, decrypt_encrypt]

/-- C7 counterexample: `FakeSecretRepository.create_secret` does NOT fail
with a duplicate-key error and DOES replace an existing record. At the
concrete input, a store already holds record `rA` under key `"k"`;
creating `rB` with the same `secret_key` returns `"k"` normally (the
operation is total — there is no error path in its code) and the store now
maps `"k"` to `rB` (with its fresh id), no longer to `rA`. -/
theorem C7_counterexample :
    (let rA : Secret :=
      { secret := encrypt "P1" "m" (List.range 16)
        passphrase := encrypt "K1" "m" (List.replicate 16 1)
        secret_key := "k", expiration := none, id := "idA" };
     let rB : Secret :=
      { secret := encrypt "P2" "m" (List.replicate 16 2)
        passphrase := encrypt "K2" "m" (List.replicate 16 3)
        secret_key := "k", expiration := none };
     (create_secret [("k", rA)] rB "idB").2 = "k" ∧
     (create_secret [("k", rA)] rB "idB").1.lookupKey "k" =
       some { rB with id := "idB" } ∧
     (create_secret [("k", rA)] rB "idB").1.lookupKey "k" ≠ some rA) := by
  refine ⟨rfl, ?_, ?_⟩ <;>
    simp [create_secret, Store.setKey, Store.lookupKey, encrypt, fernetEncrypt,
      derive_key, Secret.mk.injEq, EncryptedPayload.mk.injEq, FernetToken.mk.injEq]

/-- C7 (amended): `create_secret` never fails: for every store state,
record and fresh id, it returns the record's `secret_key` and the store
afterwards maps that key to the record (with the fresh id assigned),
silently replacing any record previously stored under the same key. -/
theorem C7_create_overwrites (store : Store) (r : Secret) (freshId : String) :
    (create_secret store r freshId).2 = r.secret_key ∧
    (create_secret store r freshId).1.lookupKey r.secret_key =
      some { r with id := freshId } :=
  ⟨rfl, Store.lookupKey_setKey_self _ _ _⟩

/-- C9: Delete idempotence — `delete_secret` is total (it has no error
path), deleting an absent key leaves the store unchanged, and deleting
twice yields the same store as deleting once. -/
theorem C9_delete_idempotent (store : Store) (k : String) :
    (store.lookupKey k = none → delete_secret store k = store) ∧
    delete_secret (delete_secret store k) k = delete_secret store k :=
  ⟨Store.eraseKey_of_lookupKey_none store k, Store.eraseKey_idem store k⟩

/-- Witness for C9 at a concrete input: the empty store does not contain
`"k"`, and deleting `"k"` from it is a no-op. -/
theorem C9_delete_idempotent_witness :
    Store.lookupKey [] "k" = none ∧ delete_secret [] "k" = [] :=
  ⟨rfl, (C9_delete_idempotent [] "k").1 rfl⟩

/-- The store left by `get_secret` is either the input store (all error
paths) or the input store with the record under `secret_key` deleted (the
success path). -/
theorem get_secret_store_cases (master_key : String) (store : Store)
    (secret_key passphrase : String) :
    (get_secret master_key store secret_key passphrase).2 = store ∨
    (get_secret master_key store secret_key passphrase).2 =
      delete_secret store secret_key := by
  cases h1 : repo_get_secret store secret_key with
  | none => exact Or.inl (by simp [get_secret, h1])
  | some s =>
    cases h2 : decrypt s.passphrase master_key with
    | none => exact Or.inl (by simp [get_secret, h1, h2])
    | some dp =>
      by_cases h3 : passphrase ≠ dp
      · exact Or.inl (by simp [get_secret, h1, h2, h3])
      · cases h4 : decrypt s.secret master_key with
        | none => exact Or.inl (by simp [get_secret, h1, h2, h3, h4])
        | some ds => exact Or.inr (by simp [get_secret, h1, h2, h3, h4])

/-- C10: Frame — `generate_secret` binds its freshly drawn uuid to the new
record, leaves every record under any other key `k'` unchanged, and (when
the uuid is fresh for the store) grows the store by exactly one record;
`get_secret` either leaves the store untouched or removes exactly the
record under the requested key, so every record under a different key is
unchanged; the repository read `repo_get_secret` returns a value without
touching the store at all. -/
theorem C10_frame (master_key : String) (store : Store)
    (request : SecretRequest) (rnd : GenRandom) (k k' p : String)
    (hfresh : store.lookupKey rnd.uuid = none)
    (h1 : k' ≠ rnd.uuid) (h2 : k' ≠ k) :
    (generate_secret master_key store request rnd).1.lookupKey rnd.uuid =
      some { secret := encrypt request.secret master_key rnd.secretSalt
             passphrase := encrypt request.passphrase master_key rnd.passphraseSalt
             secret_key := rnd.uuid
             expiration := request.expiration
             id := rnd.repoId } ∧
    (generate_secret master_key store request rnd).1.lookupKey k' =
      store.lookupKey k' ∧
    (generate_secret master_key store request rnd).1.length = store.length + 1 ∧
    ((get_secret master_key store k p).2 = store ∨
      (get_secret master_key store k p).2 = delete_secret store k) ∧
    (get_secret master_key store k p).2.lookupKey k' = store.lookupKey k' := by
  refine ⟨?_, ?_, ?_, get_secret_store_cases master_key store k p, ?_⟩
  · rw [generate_secret_eq]
    exact Store.lookupKey_setKey_self _ _ _
  · rw [generate_secret_eq]
    exact Store.lookupKey_setKey_ne _ _ _ _ h1
  · rw [generate_secret_eq]
    exact Store.length_setKey_of_lookupKey_none _ _ _ hfresh
  · rcases get_secret_store_cases master_key store k p with hc | hc <;> rw [hc]
    exact Store.lookupKey_eraseKey_ne _ _ _ h2

/-- Witness for C10 at a concrete input: empty store, fresh uuid `"k"`,
other key `"a"`, get key `"kk"`. -/
theorem C10_frame_witness :
    Store.lookupKey [] "k" = none ∧ ("a" : String) ≠ "k" ∧ ("a" : String) ≠ "kk" ∧
    ((generate_secret "m" [] ⟨"P", "K", none⟩
        ⟨List.range 16, List.replicate 16 1, "k", "id"⟩).1.lookupKey "a" =
      Store.lookupKey [] "a" ∧
     (generate_secret "m" [] ⟨"P", "K", none⟩
        ⟨List.range 16, List.replicate 16 1, "k", "id"⟩).1.length =
      ([] : Store).length + 1) := by
  have h := C10_frame "m" [] ⟨"P", "K", none⟩
    ⟨List.range 16, List.replicate 16 1, "k", "id"⟩ "kk" "a" "K"
    rfl (by decide) (by decide)
  exact ⟨rfl, by decide, by decide, h.2.1, h.2.2.1⟩

end OneTimeSecret
